import Mathlib

/-
Verification of the gurddy-mcp protocol core against its specification.

The development shallowly embeds the Python sources:
  scripts/generate_registry.py        (schema generation, registry build)
  scripts/validate_schema_consistency.py  (schema/function consistency report)
  examples/http_mcp_client.py         (buffered JSON-RPC HTTP client)
  examples/streamable_http_client.py  (dual-mode streamable client)
and the generated registry template's lookup function `get_tool_by_name`.

JSON values are modelled by an inductive `Json`; Python dicts become
ordered association lists (CPython preserves insertion order, and dict
assignment appends a fresh key at the end).
-/

set_option autoImplicit false

namespace Gurddy

/-- JSON values, as produced and consumed by the clients and the registry. -/
inductive Json where
  | null : Json
  | str : String → Json
  | num : Int → Json
  | bool : Bool → Json
  | arr : List Json → Json
  | obj : List (String × Json) → Json
deriving Repr

/-- `d.get(key)` on a dict: first binding of `key`, `none` when absent or not an object. -/
def getField : Json → String → Option Json
  | .obj fields, key => (fields.find? (fun kv => kv.1 == key)).map (·.2)
  | _, _ => none

/-- `d[key] = v` on a dict: overwrite an existing binding, else append the new key. -/
def setField (j : Json) (key : String) (v : Json) : Json :=
  match j with
  | .obj fields =>
      if fields.any (fun kv => kv.1 == key) then
        .obj (fields.map (fun kv => if kv.1 == key then (kv.1, v) else kv))
      else
        .obj (fields ++ [(key, v)])
  | other => other

/-- Python type hints that `get_type_schema` in generate_registry.py distinguishes. -/
inductive PyType where
  | pstr : PyType
  | pint : PyType
  | pfloat : PyType
  | pbool : PyType
  | plist : PyType
  | pdict : PyType
  /-- `Optional[T]`, i.e. `Union[T, None]` with exactly two arguments. -/
  | optional : PyType → PyType
  /-- any other `Union[...]`; falls through to the `{"type": "object"}` fallback. -/
  | unionOther : PyType
  /-- `list[T]` / `List[T]` with an argument. -/
  | listOf : PyType → PyType
  /-- `dict[K, V]` / `Dict[K, V]`. -/
  | dictOf : PyType → PyType → PyType
  /-- any hint the function does not recognise. -/
  | other : PyType
deriving Repr, DecidableEq

/-- generate_registry.get_type_schema: convert a Python type hint to a JSON schema. -/
def get_type_schema : PyType → Json
  | .pstr => .obj [("type", .str "string")]
  | .pint => .obj [("type", .str "integer")]
  | .pfloat => .obj [("type", .str "number")]
  | .pbool => .obj [("type", .str "boolean")]
  | .plist => .obj [("type", .str "array")]
  | .pdict => .obj [("type", .str "object")]
  | .optional t => get_type_schema t
  | .listOf t => .obj [("type", .str "array"), ("items", get_type_schema t)]
  | .dictOf _ _ => .obj [("type", .str "object")]
  | .unionOther => .obj [("type", .str "object")]
  | .other => .obj [("type", .str "object")]

/-- One formal parameter of a handler's signature: its name, its type hint
(`none` when the parameter carries no hint), and whether it has a default value. -/
structure SigParam where
  name : String
  hint : Option PyType
  hasDefault : Bool
deriving Repr, DecidableEq

/-- The fixed shape `{"type": ..., "properties": ..., "required": ...}` that every
`inputSchema` dict produced by generate_registry.py has (verify_schemas enforces it). -/
structure InputSchema where
  type : String
  properties : List (String × Json)
  required : List String
deriving Repr

/-- generate_registry.generate_schema, inner loop: from a resolved signature,
build properties (every parameter, in signature order, with a description added)
and required (exactly the parameters with no default, in signature order). -/
def generate_schema (params : List SigParam) : InputSchema :=
  { type := "object"
  , properties := params.map (fun p =>
      let base := match p.hint with
        | some h => get_type_schema h
        | none => Json.obj [("type", .str "string")]
      (p.name, setField base "description" (.str ("Parameter " ++ p.name))))
  , required := (params.filter (fun p => !p.hasDefault)).map (·.name) }

/-- The fallback schema generate_schema returns when importing or inspecting
the handler raises. -/
def emptyObjectSchema : InputSchema :=
  { type := "object", properties := [], required := [] }

/-- generate_registry.generate_schema with its try/except: a handler whose
import/getattr/signature fails (`none`) yields the empty object schema. -/
def generate_schema_checked (resolved : Option (List SigParam)) : InputSchema :=
  match resolved with
  | some params => generate_schema params
  | none => emptyObjectSchema

/-- One entry of TOOL_DEFINITIONS (tool_definitions.py): the static record
from which generate_registry.py builds a registry tool. -/
structure ToolDefinitionEntry where
  name : String
  function : String
  description : String
  category : String
  module : String
deriving Repr

/-- One entry of TOOLS in the generated tool_registry.py: the definition entry
plus its (auto-generated) inputSchema. -/
structure ToolDef where
  name : String
  function : String
  description : String
  category : String
  module : String
  inputSchema : InputSchema
deriving Repr

/-- An environment resolving `mcp_server.<module>.<function>` to a handler
signature; `none` models any failure of import/getattr/inspect. -/
def HandlerEnv : Type := String → String → Option (List SigParam)

/-- The body of generate_registry.main's loop on one entry: copy the
definition and attach the generated (or fallback) schema. -/
def build_tool (env : HandlerEnv) (d : ToolDefinitionEntry) : ToolDef :=
  { name := d.name, function := d.function, description := d.description
  , category := d.category, module := d.module
  , inputSchema := generate_schema_checked (env d.module d.function) }

/-- generate_registry.main's loop over TOOL_DEFINITIONS: the TOOLS list of the
generated registry. Never fails: generate_schema swallows resolution errors. -/
def build_registry (env : HandlerEnv) (defs : List ToolDefinitionEntry) : List ToolDef :=
  defs.map (build_tool env)

/-- validate_schema_consistency.get_schema_params: the keys of
`inputSchema.properties` (Python returns them as a set). -/
def get_schema_params (input_schema : InputSchema) : List String :=
  input_schema.properties.map (·.1)

/-- validate_schema_consistency.get_function_signature_params: the names of the
handler's signature parameters, or the empty set when resolution raises. -/
def get_function_signature_params (env : HandlerEnv) (module_name function_name : String) :
    List String :=
  match env module_name function_name with
  | some params => params.map (·.name)
  | none => []

/-- Python set difference `xs - ys` on parameter-name sets. -/
def setDiff (xs ys : List String) : List String :=
  xs.filter (fun x => !(ys.contains x))

/-- One mismatch record appended by validate_tool_consistency. -/
structure Inconsistency where
  tool_name : String
  module : String
  function : String
  missing_in_schema : List String
  extra_in_schema : List String
  schema_params : List String
  function_params : List String
deriving Repr, DecidableEq

/-- validate_schema_consistency.validate_tool_consistency: per tool, compare
the schema's property keys with the handler's signature parameter names; skip
tools whose signature could not be loaded (empty set is falsy); report a
mismatch when either difference is non-empty. -/
def validate_tool_consistency (env : HandlerEnv) (tools : List ToolDef) :
    List Inconsistency :=
  tools.filterMap (fun tool =>
    let schema_params := get_schema_params tool.inputSchema
    let function_params := get_function_signature_params env tool.module tool.function
    if function_params.isEmpty then
      none
    else
      let missing_in_schema := setDiff function_params schema_params
      let extra_in_schema := setDiff schema_params function_params
      if missing_in_schema.isEmpty && extra_in_schema.isEmpty then
        none
      else
        some { tool_name := tool.name, module := tool.module, function := tool.function
             , missing_in_schema := missing_in_schema, extra_in_schema := extra_in_schema
             , schema_params := schema_params, function_params := function_params })

/-- Equality of two string lists viewed as sets. -/
def sameSet (xs ys : List String) : Bool :=
  xs.all (ys.contains ·) && ys.all (xs.contains ·)

/-- The spec's per-tool consistency condition, written from the spec's words
for comparison with the code: the handler's required-parameter set (parameters
with no default) equals the schema's `required` list, and the keys of
`properties` are a superset of the handler's full parameter set. -/
def spec_tool_consistent (env : HandlerEnv) (tool : ToolDef) : Bool :=
  match env tool.module tool.function with
  | none => true
  | some params =>
      sameSet ((params.filter (fun p => !p.hasDefault)).map (·.name))
              tool.inputSchema.required
      && (params.map (·.name)).all ((get_schema_params tool.inputSchema).contains ·)

/-- get_tool_by_name from the generated tool_registry.py template: linear scan
for an exact name match, `None` when nothing matches. -/
def get_tool_by_name (tools : List ToolDef) (name : String) : Option ToolDef :=
  tools.find? (fun tool => tool.name == name)

/-- The mutable fields of examples/http_mcp_client.MCPHTTPClient. -/
structure HTTPClientState where
  request_id : Nat
  initialized : Bool
  server_info : Option Json
  capabilities : Option Json
deriving Repr

/-- A fresh MCPHTTPClient. -/
def freshHTTPClient : HTTPClientState :=
  { request_id := 0, initialized := false, server_info := none, capabilities := none }

/-- MCPHTTPClient._get_next_id: increment the counter and return it. -/
def _get_next_id (st : HTTPClientState) : Nat × HTTPClientState :=
  let st' := { st with request_id := st.request_id + 1 }
  (st'.request_id, st')

/-- The JSON-RPC 2.0 envelope _make_request builds: jsonrpc, id, method, and
params when not None (insertion order of the Python dict). -/
def mkHttpRequest (id : Nat) (method : String) (params : Option Json) : Json :=
  .obj ([("jsonrpc", .str "2.0"), ("id", .num (Int.ofNat id)), ("method", .str method)]
    ++ (match params with
        | some p => [("params", p)]
        | none => []))

/-- Outcome of `requests.post(...).raise_for_status(); .json()`: a parsed JSON
body, or a RequestException (connection failure, timeout, HTTP error status,
unparsable body) with its message. -/
inductive HttpOutcome where
  | ok : Json → HttpOutcome
  | failure : String → HttpOutcome

/-- A transport: what the wire answers for each posted envelope. -/
def HttpTransport : Type := Json → HttpOutcome

/-- MCPHTTPClient._make_request: assign the next id, post the envelope, return
the parsed body; a RequestException is converted to a JSON-RPC error object
carrying the assigned id and code -32603. The third component records the
envelopes posted on the wire during the call. -/
def _make_request (transport : HttpTransport) (st : HTTPClientState)
    (method : String) (params : Option Json) : Json × HTTPClientState × List Json :=
  let next := _get_next_id st
  let request := mkHttpRequest next.1 method params
  match transport request with
  | .ok body => (body, next.2, [request])
  | .failure msg =>
      (.obj [("jsonrpc", .str "2.0"), ("id", .num (Int.ofNat next.1)),
             ("error", .obj [("code", .num (-32603)),
                             ("message", .str ("HTTP request failed: " ++ msg))])],
       next.2, [request])

/-- The dict MCPHTTPClient.list_tools / call_tool return before initialization. -/
def notInitializedError : Json :=
  .obj [("error", .str "Client not initialized. Call initialize() first.")]

/-- MCPHTTPClient.list_tools: refuse (dispatching nothing) unless initialized. -/
def http_list_tools (transport : HttpTransport) (st : HTTPClientState) :
    Json × HTTPClientState × List Json :=
  if !st.initialized then
    (notInitializedError, st, [])
  else
    _make_request transport st "tools/list" none

/-- MCPHTTPClient.call_tool: refuse (dispatching nothing) unless initialized;
default missing arguments to the empty object. -/
def http_call_tool (transport : HttpTransport) (st : HTTPClientState)
    (tool_name : String) (arguments : Option Json) : Json × HTTPClientState × List Json :=
  if !st.initialized then
    (notInitializedError, st, [])
  else
    let args := match arguments with
      | some a => a
      | none => Json.obj []
    _make_request transport st "tools/call"
      (some (.obj [("name", .str tool_name), ("arguments", args)]))

/-- The params MCPHTTPClient.initialize sends. -/
def initializeParams : Json :=
  .obj [("protocolVersion", .str "2024-11-05"),
        ("capabilities", .obj [("tools", .obj [])]),
        ("clientInfo", .obj [("name", .str "gurddy-mcp-http-client"),
                             ("version", .str "0.1.0")])]

/-- MCPHTTPClient.initialize: send `initialize`; on a body containing "result",
mark the session initialized, record serverInfo/capabilities, and send the
`notifications/initialized` message through _make_request. -/
def initialize_client (transport : HttpTransport) (st : HTTPClientState) :
    Json × HTTPClientState × List Json :=
  let step1 := _make_request transport st "initialize" (some initializeParams)
  let result := step1.1
  match getField result "result" with
  | some res =>
      let st2 := { step1.2.1 with
                   initialized := true,
                   server_info := getField res "serverInfo",
                   capabilities := getField res "capabilities" }
      let step2 := _make_request transport st2 "notifications/initialized" none
      (result, step2.2.1, step1.2.2 ++ step2.2.2)
  | none => (result, step1.2.1, step1.2.2)

/-- The HTTP headers a streamable-client request carries. -/
structure Headers where
  contentType : Option String
  accept : Option String
  xStream : Option String
deriving Repr, DecidableEq

/-- examples/streamable_http_client.StreamableMCPClient._next_id: the same
increment-and-return counter, on the client's request_id field. -/
def _next_id (request_id : Nat) : Nat × Nat :=
  (request_id + 1, request_id + 1)

/-- The payload StreamableMCPClient.call_regular builds. -/
def call_regular_payload (id : Nat) (method : String) (params : Option Json) : Json :=
  .obj [("jsonrpc", .str "2.0"), ("id", .num (Int.ofNat id)), ("method", .str method),
        ("params", match params with
                   | some p => p
                   | none => Json.obj [])]

/-- The payload StreamableMCPClient.call_streaming builds (textually the same
construction as call_regular's). -/
def call_streaming_payload (id : Nat) (method : String) (params : Option Json) : Json :=
  .obj [("jsonrpc", .str "2.0"), ("id", .num (Int.ofNat id)), ("method", .str method),
        ("params", match params with
                   | some p => p
                   | none => Json.obj [])]

/-- The headers of call_regular: content type only, no streaming signal. -/
def call_regular_headers : Headers :=
  { contentType := some "application/json", accept := none, xStream := none }

/-- The headers of call_streaming: the Accept header when use_accept_header,
otherwise the X-Stream header. -/
def call_streaming_headers (use_accept_header : Bool) : Headers :=
  if use_accept_header then
    { contentType := some "application/json", accept := some "text/event-stream",
      xStream := none }
  else
    { contentType := some "application/json", accept := none, xStream := some "true" }

/-- A streamable-transport: what the wire answers for headers plus payload. -/
def StreamTransport : Type := Headers → Json → Json

/-- StreamableMCPClient.call_regular: build the payload with the next id and
post it with plain JSON headers. No initialization state exists or is checked.
The third component records the payloads posted on the wire. -/
def streamable_call_regular (transport : StreamTransport) (request_id : Nat)
    (method : String) (params : Option Json) : Json × Nat × List Json :=
  let next := _next_id request_id
  let payload := call_regular_payload next.1 method params
  (transport call_regular_headers payload, next.2, [payload])

/-- StreamableMCPClient.list_tools with streaming=False. -/
def streamable_list_tools (transport : StreamTransport) (request_id : Nat) :
    Json × Nat × List Json :=
  streamable_call_regular transport request_id "tools/list" none

/-- StreamableMCPClient.call_tool with streaming=False. -/
def streamable_call_tool (transport : StreamTransport) (request_id : Nat)
    (tool_name : String) (arguments : Option Json) : Json × Nat × List Json :=
  let args := match arguments with
    | some a => a
    | none => Json.obj []
  streamable_call_regular transport request_id "tools/call"
    (some (.obj [("name", .str tool_name), ("arguments", args)]))

/-- Delivery mode of one exchange. -/
inductive Mode where
  | buffered : Mode
  | streaming : Mode
deriving Repr, DecidableEq

/-- Modelled from the spec: the server's mode selection for `/mcp/http` is not
under src/; per the spec, mode is chosen per exchange by an out-of-band signal
(accept-type negotiation or explicit flag), and absence of the signal selects
buffered mode. -/
def selectMode (h : Headers) : Mode :=
  if h.accept == some "text/event-stream" || h.xStream == some "true" then
    .streaming
  else
    .buffered

/-- Modelled from the spec: the final JSON-RPC response envelope of one
exchange, given the server's handling function for (method, params). -/
def finalResponse (handle : String → Json → Json) (id : Nat) (method : String)
    (params : Json) : Json :=
  .obj [("jsonrpc", .str "2.0"), ("id", .num (Int.ofNat id)),
        ("result", handle method params)]

/-- Modelled from the spec: the server's dual-mode exchange (`/mcp/http`, not
under src/). Buffered mode delivers the single final response; streaming mode
delivers an ordered finite sequence of frames terminated by the final
response frame, `progress` being the mode-independent intermediate frames. -/
def server_exchange (handle : String → Json → Json) (progress : String → Json → List Json)
    (mode : Mode) (id : Nat) (method : String) (params : Json) : List Json :=
  match mode with
  | .buffered => [finalResponse handle id method params]
  | .streaming => progress method params ++ [finalResponse handle id method params]

/-- The ids handed out by `n` successive _next_id calls starting from a
given counter value. -/
def idTrace : Nat → Nat → List Nat
  | _, 0 => []
  | counter, k + 1 =>
      let next := _next_id counter
      next.1 :: idTrace next.2 k

/-! ## Concrete instances used by counterexamples and witnesses -/

/-- An environment in which "m"."f" resolves to a single required parameter "a". -/
def c1env : HandlerEnv := fun _ _ => some [{ name := "a", hint := none, hasDefault := false }]

/-- A tool whose schema lists property "a" but declares nothing required,
although the handler's parameter "a" has no default. -/
def c1tool : ToolDef :=
  { name := "t", function := "f", description := "d", category := "c", module := "m"
  , inputSchema := { type := "object"
                   , properties := [("a", Json.obj [("type", Json.str "string")])]
                   , required := [] } }

/-- An environment in which no handler reference resolves. -/
def c2envFail : HandlerEnv := fun _ _ => none

/-- A static tool definition entry whose handler will not resolve under c2envFail. -/
def c2entry : ToolDefinitionEntry :=
  { name := "solve_n_queens", function := "solve_n_queens_handler"
  , description := "Solve N-Queens", category := "puzzle", module := "handlers.gurddy" }

/-- Concrete signature used to witness schema-generation facts: one required
integer parameter and one optional unhinted parameter. -/
def c3params : List SigParam :=
  [{ name := "a", hint := some .pint, hasDefault := false },
   { name := "b", hint := none, hasDefault := true }]

/-- A streamable-transport that answers every request with a tools/list result. -/
def c4transport : StreamTransport := fun _ _ =>
  Json.obj [("jsonrpc", Json.str "2.0"), ("id", Json.num 1),
            ("result", Json.obj [("tools", Json.arr [])])]

/-- An HTTP transport on which every post fails (server unreachable). -/
def c4failTransport : HttpTransport := fun _ => HttpOutcome.failure "connection refused"

/-- An HTTP transport whose server answers every envelope with a result body. -/
def c6transport : HttpTransport := fun _ =>
  HttpOutcome.ok (Json.obj [("jsonrpc", Json.str "2.0"), ("id", Json.num 1),
                            ("result", Json.obj [])])

/-- Registered tool "alpha" for lookup witnesses. -/
def c7alpha : ToolDef :=
  { name := "alpha", function := "fa", description := "", category := ""
  , module := "m", inputSchema := emptyObjectSchema }

/-- Registered tool "beta" for lookup witnesses. -/
def c7beta : ToolDef :=
  { name := "beta", function := "fb", description := "", category := ""
  , module := "m", inputSchema := emptyObjectSchema }

/-- A two-tool registry with distinct names. -/
def c7tools : List ToolDef := [c7alpha, c7beta]

/-- An environment in which no handler reference resolves (validator witness). -/
def c9env : HandlerEnv := fun _ _ => none

/-- A tool whose handler is unloadable under c9env. -/
def c9tool : ToolDef :=
  { name := "t9", function := "f9", description := "", category := ""
  , module := "m9", inputSchema := emptyObjectSchema }

/-- An HTTP transport on which every post fails with message "conn". -/
def c10transport : HttpTransport := fun _ => HttpOutcome.failure "conn"

/-! ## Theorems -/

/-- Claim C3: for every handler signature, the auto-generated inputSchema has
properties whose keys are exactly the handler's formal parameter names (in
signature order) and a required list of exactly the parameters without a
default; a parameter with a default is in properties but not in required. -/
theorem C3_generate_schema (params : List SigParam)
    (hnodup : (params.map SigParam.name).Nodup) :
    (generate_schema params).properties.map Prod.fst = params.map SigParam.name
    ∧ (generate_schema params).required
        = (params.filter (fun p => !p.hasDefault)).map SigParam.name
    ∧ ∀ p ∈ params, p.hasDefault = true → p.name ∉ (generate_schema params).required := by
  refine ⟨?_, rfl, ?_⟩
  · simp only [generate_schema, List.map_map]
    rfl
  · intro p hp hdef hmem
    simp only [generate_schema, List.mem_map, List.mem_filter] at hmem
    obtain ⟨q, ⟨hq, hqd⟩, hqname⟩ := hmem
    have hpq : q = p := List.inj_on_of_nodup_map hnodup hq hp hqname
    rw [hpq, hdef] at hqd
    simp at hqd

/-- Witness for C3 at the concrete signature c3params. -/
theorem C3_generate_schema_witness :
    (generate_schema c3params).properties.map Prod.fst = ["a", "b"]
    ∧ (generate_schema c3params).required = ["a"]
    ∧ "b" ∉ (generate_schema c3params).required := by
  have h := C3_generate_schema c3params (by decide)
  exact ⟨h.1, h.2.1, h.2.2 { name := "b", hint := none, hasDefault := true }
    (by decide) rfl⟩

/-- Claim C5: for identical (method, params), the streaming payload equals the
buffered payload (the JSON-RPC payload is mode-independent); the mode is chosen
only by the out-of-band signal — no signal selects buffered, the Accept or
X-Stream header selects streaming; and the final frame of a streaming exchange
carries the same response the buffered exchange delivers. -/
theorem C5_mode_equivalence (handle : String → Json → Json)
    (progress : String → Json → List Json) (n : Nat) (method : String)
    (params : Option Json) (p : Json) :
    call_streaming_payload n method params = call_regular_payload n method params
    ∧ selectMode call_regular_headers = Mode.buffered
    ∧ selectMode (call_streaming_headers true) = Mode.streaming
    ∧ selectMode (call_streaming_headers false) = Mode.streaming
    ∧ (server_exchange handle progress Mode.streaming n method p).getLast?
        = some (finalResponse handle n method p)
    ∧ server_exchange handle progress Mode.buffered n method p
        = [finalResponse handle n method p] := by
  refine ⟨rfl, rfl, rfl, rfl, ?_, rfl⟩
  exact List.getLast?_concat (progress method p)

/-- The ids handed out by successive _next_id calls from counter `c` are
exactly c+1, c+2, ..., c+n. -/
theorem idTrace_eq_range' (n : Nat) : ∀ c : Nat, idTrace c n = List.range' (c + 1) n := by
  induction n with
  | zero => intro c; rfl
  | succ k ih =>
      intro c
      show (c + 1) :: idTrace (c + 1) k = List.range' (c + 1) (k + 1)
      rw [ih (c + 1), List.range'_succ]

/-- Claim C8: request ids form a per-session monotonically increasing counter
starting at 1 — the trace of n successive id assignments on a fresh session is
exactly [1, ..., n], hence strictly increasing and duplicate-free; and each
_get_next_id / _next_id call returns the incremented counter. -/
theorem C8_request_ids (n : Nat) :
    idTrace 0 n = List.range' 1 n
    ∧ (idTrace 0 n).Pairwise (· < ·)
    ∧ (idTrace 0 n).Nodup
    ∧ (∀ st : HTTPClientState, (_get_next_id st).1 = st.request_id + 1
        ∧ (_get_next_id st).2.request_id = st.request_id + 1)
    ∧ ∀ c : Nat, (_next_id c).1 = c + 1 ∧ (_next_id c).2 = c + 1 := by
  refine ⟨idTrace_eq_range' n 0, ?_, ?_, fun st => ⟨rfl, rfl⟩, fun c => ⟨rfl, rfl⟩⟩
  · rw [idTrace_eq_range' n 0]
    exact List.pairwise_lt_range' 1 n
  · rw [idTrace_eq_range' n 0]
    exact List.nodup_range' 1 n

/-- Emptiness of a Python set difference is containment. -/
theorem setDiff_isEmpty_iff (xs ys : List String) :
    (setDiff xs ys).isEmpty = true ↔ ∀ x ∈ xs, x ∈ ys := by
  simp [setDiff, List.isEmpty_iff, List.filter_eq_nil_iff]

/-- Claim C1 (amended): the validator's report is empty iff, for every tool
whose handler signature loads with at least one parameter, the keys of
inputSchema.properties are exactly (as a set) the handler's parameter names;
the schema's `required` list is never consulted, and extra properties are
reported, so the properties keys must equal — not merely include — the
handler's parameter set. -/
theorem C1_validator_report_empty_iff (env : HandlerEnv) (tools : List ToolDef) :
    validate_tool_consistency env tools = [] ↔
      ∀ tool ∈ tools,
        get_function_signature_params env tool.module tool.function = []
        ∨ ∀ x : String,
            (x ∈ get_function_signature_params env tool.module tool.function
              ↔ x ∈ get_schema_params tool.inputSchema) := by
  rw [validate_tool_consistency, List.filterMap_eq_nil_iff]
  refine forall₂_congr (fun tool _ => ?_)
  simp only []
  constructor
  · intro htool
    by_cases hfe : (get_function_signature_params env tool.module tool.function).isEmpty
      = true
    · exact Or.inl (List.isEmpty_iff.mp hfe)
    · right
      by_cases h2 : ((setDiff (get_function_signature_params env tool.module tool.function)
            (get_schema_params tool.inputSchema)).isEmpty
          && (setDiff (get_schema_params tool.inputSchema)
            (get_function_signature_params env tool.module tool.function)).isEmpty) = true
      · have hm := (setDiff_isEmpty_iff _ _).mp (Bool.and_elim_left h2)
        have he := (setDiff_isEmpty_iff _ _).mp (Bool.and_elim_right h2)
        exact fun x => ⟨fun hx => hm x hx, fun hx => he x hx⟩
      · simp [hfe, h2] at htool
  · intro htool
    rcases htool with hfe | hiff
    · simp [hfe]
    · have hm : (setDiff (get_function_signature_params env tool.module tool.function)
          (get_schema_params tool.inputSchema)).isEmpty = true :=
        (setDiff_isEmpty_iff _ _).mpr (fun x hx => (hiff x).mp hx)
      have he : (setDiff (get_schema_params tool.inputSchema)
          (get_function_signature_params env tool.module tool.function)).isEmpty = true :=
        (setDiff_isEmpty_iff _ _).mpr (fun x hx => (hiff x).mpr hx)
      simp [hm, he]

/-- Claim C1 counterexample: with one tool whose handler takes the required
parameter "a", whose schema lists property "a" but has an empty `required`
list, the report is empty while the spec's condition (required-parameter set
equals `inputSchema.required`, properties ⊇ parameters) fails: the claimed
equivalence is false at this input. -/
theorem C1_counterexample :
    ¬ (validate_tool_consistency c1env [c1tool] = []
        ↔ [c1tool].all (spec_tool_consistent c1env) = true) := by
  decide

/-- Claim C2 (amended): registry generation never fails on an unresolved
handler reference — generate_schema catches the error and substitutes the
empty object schema, so the generated registry keeps every definition entry
(names preserved) and contains the unresolvable tool with an empty schema. -/
theorem C2_registry_tolerates_unresolved (env : HandlerEnv)
    (defs : List ToolDefinitionEntry) (d : ToolDefinitionEntry)
    (hd : d ∈ defs) (h : env d.module d.function = none) :
    (build_registry env defs).map ToolDef.name = defs.map ToolDefinitionEntry.name
    ∧ build_tool env d ∈ build_registry env defs
    ∧ (build_tool env d).inputSchema = emptyObjectSchema := by
  refine ⟨?_, List.mem_map_of_mem _ hd, ?_⟩
  · rw [build_registry, List.map_map]
    rfl
  · simp [build_tool, generate_schema_checked, h]

/-- Witness for C2 (amended) at the concrete unresolvable entry c2entry. -/
theorem C2_registry_tolerates_unresolved_witness :
    (build_registry c2envFail [c2entry]).map ToolDef.name
      = [c2entry].map ToolDefinitionEntry.name
    ∧ build_tool c2envFail c2entry ∈ build_registry c2envFail [c2entry]
    ∧ (build_tool c2envFail c2entry).inputSchema = emptyObjectSchema :=
  C2_registry_tolerates_unresolved c2envFail [c2entry] c2entry
    (List.mem_cons_self _ _) rfl

/-- Claim C2 counterexample: under an environment where no handler resolves,
registry generation still completes and the tool is present — with the empty
fallback schema — rather than construction failing. -/
theorem C2_counterexample :
    c2envFail c2entry.module c2entry.function = none
    ∧ (build_registry c2envFail [c2entry]).map ToolDef.name = [c2entry.name]
    ∧ build_registry c2envFail [c2entry]
        = [{ name := c2entry.name, function := c2entry.function
           , description := c2entry.description, category := c2entry.category
           , module := c2entry.module, inputSchema := emptyObjectSchema }] :=
  ⟨rfl, rfl, rfl⟩

/-- Claim C4 (amended): the buffered HTTP client (MCPHTTPClient) refuses
tools/list and tools/call before initialization — it returns the
not-initialized error object, leaves its state unchanged and posts nothing on
the wire. (The streamable client has no such gate; see the counterexample.) -/
theorem C4_http_client_gates_uninitialized (transport : HttpTransport)
    (st : HTTPClientState) (h : st.initialized = false)
    (tool_name : String) (arguments : Option Json) :
    http_list_tools transport st = (notInitializedError, st, [])
    ∧ http_call_tool transport st tool_name arguments = (notInitializedError, st, []) := by
  constructor
  · simp [http_list_tools, h]
  · simp [http_call_tool, h]

/-- Witness for C4 (amended): a fresh MCPHTTPClient against an unreachable
server dispatches nothing and reports not-initialized. -/
theorem C4_http_client_gates_uninitialized_witness :
    http_list_tools c4failTransport freshHTTPClient
      = (notInitializedError, freshHTTPClient, [])
    ∧ http_call_tool c4failTransport freshHTTPClient "solve_n_queens" none
      = (notInitializedError, freshHTTPClient, []) :=
  C4_http_client_gates_uninitialized c4failTransport freshHTTPClient rfl
    "solve_n_queens" none

/-- Claim C4 counterexample: a fresh StreamableMCPClient (counter 0, no
initialize ever issued) on which tools/list is invoked posts a request on the
wire — the dispatched trace is non-empty — and the returned body carries no
error member, refuting "no request is dispatched and a NotInitialized-class
error is returned, for every client instance". -/
theorem C4_counterexample :
    (streamable_list_tools c4transport 0).2.2 ≠ []
    ∧ (streamable_list_tools c4transport 0).2.2
        = [call_regular_payload 1 "tools/list" none]
    ∧ getField (streamable_list_tools c4transport 0).1 "error" = none := by
  refine ⟨?_, rfl, rfl⟩
  rw [show (streamable_list_tools c4transport 0).2.2
      = [call_regular_payload 1 "tools/list" none] from rfl]
  exact List.cons_ne_nil _ _

/-- Claim C6: the `notifications/initialized` message that MCPHTTPClient sends
after a successful initialize goes through _make_request, so its envelope
carries an `id` member (here id 2) — contradicting the documented contract
that notifications omit `id`; and being posted via the request primitive, a
response body is read for it. -/
theorem C6_notification_carries_id :
    (initialize_client c6transport freshHTTPClient).2.2
      = [mkHttpRequest 1 "initialize" (some initializeParams),
         mkHttpRequest 2 "notifications/initialized" none]
    ∧ getField (mkHttpRequest 2 "notifications/initialized" none) "id"
      = some (Json.num 2) :=
  ⟨rfl, rfl⟩

/-- Lookup returns the registered tool for its exact name, provided names are
unique (the registry invariant). -/
theorem find_registered (s : String) :
    ∀ tools : List ToolDef, (tools.map ToolDef.name).Nodup →
      ∀ t ∈ tools, t.name = s → get_tool_by_name tools s = some t := by
  intro tools
  induction tools with
  | nil =>
      intro _ t ht
      simp at ht
  | cons hd tl ih =>
      intro hnodup t ht hname
      rw [List.map_cons, List.nodup_cons] at hnodup
      rcases List.mem_cons.mp ht with rfl | htl
      · show List.find? _ _ = _
        rw [List.find?_cons_of_pos _ (by simp [hname])]
      · have hne : (hd.name == s) = false := by
          simp only [beq_eq_false_iff_ne, ne_eq]
          intro he
          exact hnodup.1 (he ▸ hname ▸ List.mem_map_of_mem ToolDef.name htl)
        show List.find? _ _ = _
        rw [List.find?_cons_of_neg _ (by simp [hne])]
        exact ih hnodup.2 t htl hname

/-- Claim C7: for every registry with unique names, lookup returns exactly the
tool registered under a name, and `none` for every other string — in
particular for strings differing from a registered name only in case or in
surrounding whitespace, since comparison is exact string equality. -/
theorem C7_get_tool_by_name (tools : List ToolDef) (s : String)
    (hnodup : (tools.map ToolDef.name).Nodup) :
    (∀ t ∈ tools, t.name = s → get_tool_by_name tools s = some t)
    ∧ (s ∉ tools.map ToolDef.name → get_tool_by_name tools s = none) := by
  refine ⟨fun t ht hname => find_registered s tools hnodup t ht hname, fun hnot => ?_⟩
  rw [get_tool_by_name, List.find?_eq_none]
  intro t ht
  simp only [beq_iff_eq]
  intro he
  exact hnot (he ▸ List.mem_map_of_mem ToolDef.name ht)

/-- Witness for C7 on the concrete two-tool registry: exact match found,
case variant and whitespace variant both yield none. -/
theorem C7_get_tool_by_name_witness :
    get_tool_by_name c7tools "alpha" = some c7alpha
    ∧ get_tool_by_name c7tools "ALPHA" = none
    ∧ get_tool_by_name c7tools " alpha" = none := by
  have h1 := C7_get_tool_by_name c7tools "alpha" (by decide)
  have h2 := C7_get_tool_by_name c7tools "ALPHA" (by decide)
  have h3 := C7_get_tool_by_name c7tools " alpha" (by decide)
  exact ⟨h1.1 c7alpha (List.mem_cons_self _ _) rfl, h2.2 (by decide), h3.2 (by decide)⟩

/-- Claim C9: the validator is a total function of the tool list, and a tool
whose handler cannot be imported is skipped entirely — alone it yields an
empty report, and in any list it contributes no entry. -/
theorem C9_unloadable_handler_skipped (env : HandlerEnv) (t : ToolDef)
    (ts : List ToolDef) (h : env t.module t.function = none) :
    validate_tool_consistency env [t] = []
    ∧ validate_tool_consistency env (t :: ts) = validate_tool_consistency env ts := by
  have hfp : get_function_signature_params env t.module t.function = [] := by
    simp [get_function_signature_params, h]
  constructor
  · simp [validate_tool_consistency, hfp]
  · simp [validate_tool_consistency, List.filterMap_cons, hfp]

/-- Witness for C9 at the concrete unloadable tool c9tool. -/
theorem C9_unloadable_handler_skipped_witness :
    validate_tool_consistency c9env [c9tool] = []
    ∧ validate_tool_consistency c9env (c9tool :: [c9tool])
      = validate_tool_consistency c9env [c9tool] :=
  C9_unloadable_handler_skipped c9env c9tool [c9tool] rfl

/-- Claim C10: _make_request is total, and a transport-level failure is
converted into a JSON-RPC error object carrying the id assigned to that very
request and error code -32603; the counter still advances and the envelope was
posted with that id. -/
theorem C10_make_request_error_conversion (transport : HttpTransport)
    (st : HTTPClientState) (method : String) (params : Option Json) (msg : String)
    (h : transport (mkHttpRequest (st.request_id + 1) method params)
          = HttpOutcome.failure msg) :
    (_make_request transport st method params).1
      = Json.obj [("jsonrpc", Json.str "2.0"),
                  ("id", Json.num (Int.ofNat (st.request_id + 1))),
                  ("error", Json.obj [("code", Json.num (-32603)),
                                      ("message",
                                       Json.str ("HTTP request failed: " ++ msg))])]
    ∧ (_make_request transport st method params).2.1.request_id = st.request_id + 1
    ∧ (_make_request transport st method params).2.2
        = [mkHttpRequest (st.request_id + 1) method params] := by
  simp [_make_request, _get_next_id, h]

/-- Witness for C10: a fresh client against a transport that always fails gets
the structured -32603 error carrying id 1. -/
theorem C10_make_request_error_conversion_witness :
    (_make_request c10transport freshHTTPClient "tools/list" none).1
      = Json.obj [("jsonrpc", Json.str "2.0"),
                  ("id", Json.num (Int.ofNat (0 + 1))),
                  ("error", Json.obj [("code", Json.num (-32603)),
                                      ("message",
                                       Json.str ("HTTP request failed: " ++ "conn"))])]
    ∧ (_make_request c10transport freshHTTPClient "tools/list" none).2.1.request_id
      = 0 + 1
    ∧ (_make_request c10transport freshHTTPClient "tools/list" none).2.2
      = [mkHttpRequest (0 + 1) "tools/list" none] :=
  C10_make_request_error_conversion c10transport freshHTTPClient "tools/list" none
    "conn" rfl

end Gurddy
